import Mathlib

/-!
Shallow embedding of the outer-wilds-web rust-server simulation backend
(src/main.rs, src/ship.rs, src/kafka_producer.rs).

`f64` values are modelled as real numbers; the `uuid::Uuid` identifiers are
modelled as natural numbers (they are only compared for equality); the
`HashMap<Uuid, Arc<Mutex<TheShip>>>` ship map is modelled as an association
list with unique keys; `serde_json::Value` is modelled by the inductive
`Json` below.  A Rust panic (an `unwrap()` on `None`) is modelled as the
`Except.error` branch, carrying the shared state as it stands at the moment
of the panic (in-place mutations performed before the panic persist).
-/

open Real

/-- `Planet` from src/main.rs lines 18-24. -/
structure Planet where
  name : String
  distance_from_sun : ℝ
  angle : ℝ
  angular_velocity : ℝ

namespace Planet

/-- `Planet::new` from src/main.rs lines 27-34: angle starts at 0,
`angular_velocity = 2π / orbital_period`. -/
noncomputable def new (name : String) (distance_from_sun orbital_period : ℝ) : Planet :=
  { name := name
    distance_from_sun := distance_from_sun
    angle := 0
    angular_velocity := 2 * π / orbital_period }

/-- `Planet::update_position` from src/main.rs lines 36-41:
`self.angle += self.angular_velocity * delta_time;
 if self.angle > 2.0 * PI { self.angle -= 2.0 * PI; }`. -/
noncomputable def update_position (p : Planet) (delta_time : ℝ) : Planet :=
  let angle := p.angle + p.angular_velocity * delta_time
  if angle > 2 * π then { p with angle := angle - 2 * π }
  else { p with angle := angle }

/-- `Planet::position` from src/main.rs lines 43-48. -/
noncomputable def position (p : Planet) : ℝ × ℝ :=
  (p.distance_from_sun * Real.cos p.angle, p.distance_from_sun * Real.sin p.angle)

end Planet

/-- `Engines` from src/ship.rs lines 6-14. -/
structure Engines where
  power : ℝ
  front : Bool
  back : Bool
  left : Bool
  right : Bool
  up : Bool
  down : Bool

/-- `RotationEngines` from src/ship.rs lines 17-23. -/
structure RotationEngines where
  power : ℝ
  left : Bool
  right : Bool
  up : Bool
  down : Bool

/-- `TheShip` from src/ship.rs lines 26-35.  The Rust `(f64, f64, f64)`
triples become `ℝ × ℝ × ℝ`; a Rust index `.0/.1/.2` is `.1/.2.1/.2.2`. -/
structure TheShip where
  uuid : ℕ
  speed : ℝ × ℝ × ℝ
  position : ℝ × ℝ × ℝ
  direction : ℝ × ℝ × ℝ
  engines : Engines
  rotation_engines : RotationEngines
  angle : ℝ
  pitch : ℝ

namespace TheShip

/-- `TheShip::new` from src/ship.rs lines 38-63.  `Uuid::new_v4()` is an
external random source, modelled as the parameter `u`. -/
noncomputable def new (u : ℕ) : TheShip :=
  { uuid := u
    speed := (0, 0, 0)
    position := (0, 0, 450)
    direction := (1, 0, 0)
    engines :=
      { power := 1
        front := false
        back := false
        left := false
        right := false
        up := false
        down := false }
    rotation_engines :=
      { power := 0.5
        left := false
        right := false
        up := false
        down := false }
    angle := -(π / 2)
    pitch := 0 }

/-- `TheShip::rotate` from src/ship.rs lines 174-204: accumulate yaw/pitch
from the active rotation flags, recompute the direction from angle and
pitch, then divide by its Euclidean norm. -/
noncomputable def rotate (s : TheShip) (delta_time : ℝ) : TheShip :=
  let rotation_speed := delta_time * s.rotation_engines.power
  let angle := if s.rotation_engines.left then s.angle + rotation_speed else s.angle
  let angle := if s.rotation_engines.right then angle - rotation_speed else angle
  let pitch := if s.rotation_engines.up then s.pitch - rotation_speed else s.pitch
  let pitch := if s.rotation_engines.down then pitch + rotation_speed else pitch
  let d0 := Real.cos angle * Real.cos pitch
  let d1 := Real.sin pitch
  let d2 := Real.sin angle * Real.cos pitch
  let norm := Real.sqrt (d0 ^ 2 + d1 ^ 2 + d2 ^ 2)
  { s with
    angle := angle
    pitch := pitch
    direction := (d0 / norm, d1 / norm, d2 / norm) }

/-- The `vertical_local` vector of `TheShip::accelerate`, src/ship.rs
lines 129-133. -/
noncomputable def vertical_local (s : TheShip) : ℝ × ℝ × ℝ :=
  (-s.direction.1 * Real.sin s.pitch,
    Real.cos s.pitch,
    -s.direction.2.2 * Real.sin s.pitch)

/-- The `lateral_local` vector of `TheShip::accelerate`, src/ship.rs
lines 150-154 (cross product of the direction with the world vertical
axis `(0, 1, 0)`, written out literally as in the source). -/
noncomputable def lateral_local (s : TheShip) : ℝ × ℝ × ℝ :=
  (s.direction.2.1 * 0 - s.direction.2.2 * 1,
    s.direction.2.2 * 0 - s.direction.1 * 0,
    s.direction.1 * 1 - s.direction.2.1 * 0)

/-- `TheShip::accelerate` from src/ship.rs lines 115-169: each active
engine flag adds its contribution to `speed`, in source order
(front, back, up, down, left, right). -/
noncomputable def accelerate (s : TheShip) (delta_time : ℝ) : TheShip :=
  let speed := s.speed
  let speed :=
    if s.engines.front then
      (speed.1 - s.direction.1 * delta_time * s.engines.power,
        speed.2.1 - s.direction.2.1 * delta_time * s.engines.power,
        speed.2.2 - s.direction.2.2 * delta_time * s.engines.power)
    else speed
  let speed :=
    if s.engines.back then
      (speed.1 + s.direction.1 * delta_time * s.engines.power,
        speed.2.1 + s.direction.2.1 * delta_time * s.engines.power,
        speed.2.2 + s.direction.2.2 * delta_time * s.engines.power)
    else speed
  let vl := vertical_local s
  let speed :=
    if s.engines.up then
      (speed.1 - vl.1 * delta_time * s.engines.power,
        speed.2.1 - vl.2.1 * delta_time * s.engines.power,
        speed.2.2 - vl.2.2 * delta_time * s.engines.power)
    else speed
  let speed :=
    if s.engines.down then
      (speed.1 + vl.1 * delta_time * s.engines.power,
        speed.2.1 + vl.2.1 * delta_time * s.engines.power,
        speed.2.2 + vl.2.2 * delta_time * s.engines.power)
    else speed
  let ll := lateral_local s
  let speed :=
    if s.engines.left then
      (speed.1 + ll.1 * delta_time * s.engines.power,
        speed.2.1 + ll.2.1 * delta_time * s.engines.power,
        speed.2.2 + ll.2.2 * delta_time * s.engines.power)
    else speed
  let speed :=
    if s.engines.right then
      (speed.1 - ll.1 * delta_time * s.engines.power,
        speed.2.1 - ll.2.1 * delta_time * s.engines.power,
        speed.2.2 - ll.2.2 * delta_time * s.engines.power)
    else speed
  { s with speed := speed }

/-- `TheShip::update` from src/ship.rs lines 90-113: rotate, accelerate,
then integrate the position (the two `println!` calls have no state
effect). -/
noncomputable def update (s : TheShip) (delta_time : ℝ) : TheShip :=
  let s := s.rotate delta_time
  let s := s.accelerate delta_time
  { s with
    position :=
      (s.position.1 + s.speed.1 * delta_time,
        s.position.2.1 + s.speed.2.1 * delta_time,
        s.position.2.2 + s.speed.2.2 * delta_time) }

end TheShip

/-- `SolarSystem` from src/main.rs lines 51-55.  The
`HashMap<Uuid, Arc<Mutex<TheShip>>>` is modelled as an association list
whose keys are kept unique by the insert/remove operations below. -/
structure SolarSystem where
  planets : List Planet
  ships : List (ℕ × TheShip)

namespace SolarSystem

/-- `SolarSystem::update` from src/main.rs lines 71-79. -/
noncomputable def update (ss : SolarSystem) (delta_time : ℝ) : SolarSystem :=
  { planets := ss.planets.map (fun p => p.update_position delta_time)
    ships := ss.ships.map (fun q => (q.1, q.2.update delta_time)) }

/-- `SolarSystem::add_ship` from src/main.rs lines 81-84: keyed insert
(`HashMap::insert` replaces any entry with the same key). -/
noncomputable def add_ship (ss : SolarSystem) (ship : TheShip) : SolarSystem :=
  { ss with ships := (ship.uuid, ship) :: ss.ships.filter (fun q => q.1 ≠ ship.uuid) }

/-- `SolarSystem::remove_ship` from src/main.rs lines 86-88:
`self.ships.remove(&uuid)` (the returned `Option` is discarded). -/
def remove_ship (ss : SolarSystem) (uuid : ℕ) : SolarSystem :=
  { ss with ships := ss.ships.filter (fun q => q.1 ≠ uuid) }

/-- `SolarSystem::positions` from src/main.rs lines 90-95. -/
noncomputable def positions (ss : SolarSystem) : List (String × ℝ × ℝ) :=
  ss.planets.map (fun p => (p.name, p.position))

/-- `self.ships.get(&uuid)` on the modelled ship map. -/
def getShip (ss : SolarSystem) (uuid : ℕ) : Option TheShip :=
  (ss.ships.find? (fun q => q.1 = uuid)).map Prod.snd

/-- Writing a mutated ship back at its key (in Rust the mutation happens
in place through the `Arc<Mutex<TheShip>>` handle). -/
def setShip (ss : SolarSystem) (uuid : ℕ) (sh : TheShip) : SolarSystem :=
  { ss with ships := ss.ships.map (fun q => if q.1 = uuid then (q.1, sh) else q) }

end SolarSystem

/-- `serde_json::Value`, restricted to what `on_message` inspects. -/
inductive Json where
  | null
  | bool (b : Bool)
  | num (x : ℝ)
  | str (s : String)
  | arr (elems : List Json)
  | obj (fields : List (String × Json))

namespace Json

/-- `serde_json::Value::get(key)`: `Some` field value on an object that
has the key, `None` otherwise. -/
def get (j : Json) (key : String) : Option Json :=
  match j with
  | .obj fields => (fields.find? (fun q => q.1 = key)).map Prod.snd
  | _ => none

/-- `serde_json::Value::as_bool()`: `Some` only on a JSON boolean. -/
def as_bool (j : Json) : Option Bool :=
  match j with
  | .bool b => some b
  | _ => none

end Json

/-- One `x.get("k").unwrap().as_bool().unwrap()` chain of `on_message`:
`none` means the Rust code panics. -/
def getBoolField (j : Json) (key : String) : Option Bool :=
  (j.get key).bind Json.as_bool

/-- The engines block of `Server::on_message`, src/main.rs lines 163-168:
six field assignments in source order.  `Except.error` models a panic of
an `unwrap()`; its payload is the ship as already partially mutated by the
assignments that ran before the panic. -/
def apply_engines (e : Json) (sh : TheShip) : Except TheShip TheShip :=
  match getBoolField e "front" with
  | none => .error sh
  | some b =>
    let sh := { sh with engines.front := b }
    match getBoolField e "back" with
    | none => .error sh
    | some b =>
      let sh := { sh with engines.back := b }
      match getBoolField e "left" with
      | none => .error sh
      | some b =>
        let sh := { sh with engines.left := b }
        match getBoolField e "right" with
        | none => .error sh
        | some b =>
          let sh := { sh with engines.right := b }
          match getBoolField e "up" with
          | none => .error sh
          | some b =>
            let sh := { sh with engines.up := b }
            match getBoolField e "down" with
            | none => .error sh
            | some b => .ok { sh with engines.down := b }

/-- The rotation block of `Server::on_message`, src/main.rs lines 175-178:
four field assignments in source order, with the same panic model. -/
def apply_rotation (r : Json) (sh : TheShip) : Except TheShip TheShip :=
  match getBoolField r "left" with
  | none => .error sh
  | some b =>
    let sh := { sh with rotation_engines.left := b }
    match getBoolField r "right" with
    | none => .error sh
    | some b =>
      let sh := { sh with rotation_engines.right := b }
      match getBoolField r "up" with
      | none => .error sh
      | some b =>
        let sh := { sh with rotation_engines.up := b }
        match getBoolField r "down" with
        | none => .error sh
        | some b => .ok { sh with rotation_engines.down := b }

/-- `Server::on_message` from src/main.rs lines 155-183.  The input is the
already-parsed message (`none` models a `serde_json::from_str` failure,
which the source silently skips).  `ship_uuid` is the session's ship id.
`Except.error` models a panic inside the handler (`unwrap()` on a missing
ship, a missing field, or a non-boolean field); its payload is the solar
system as mutated up to the point of the panic.  `Except.ok` is the
`Ok(())` return, with the mutated solar system. -/
def on_message (ss : SolarSystem) (ship_uuid : ℕ) (msg : Option Json) :
    Except SolarSystem SolarSystem :=
  match msg with
  | none => .ok ss
  | some v =>
    match v.get "data" with
    | none => .ok ss
    | some data =>
      let afterEngines : Except SolarSystem SolarSystem :=
        match data.get "engines" with
        | none => .ok ss
        | some engines =>
          match ss.getShip ship_uuid with
          | none => .error ss
          | some sh =>
            match apply_engines engines sh with
            | .error sh1 => .error (ss.setShip ship_uuid sh1)
            | .ok sh1 => .ok (ss.setShip ship_uuid sh1)
      match afterEngines with
      | .error ss1 => .error ss1
      | .ok ss1 =>
        match data.get "rotation" with
        | none => .ok ss1
        | some rotation =>
          match ss1.getShip ship_uuid with
          | none => .error ss1
          | some sh =>
            match apply_rotation rotation sh with
            | .error sh1 => .error (ss1.setShip ship_uuid sh1)
            | .ok sh1 => .ok (ss1.setShip ship_uuid sh1)

/-- `PlanetPosition` from src/kafka_producer.rs lines 6-14. -/
structure PlanetPosition where
  type_object : String
  name : String
  x : ℝ
  y : ℝ
  z : ℝ
  timestamp : ℕ

/-- `KafkaProducer::send_planet_positions` from src/kafka_producer.rs
lines 35-68, viewed as the batch of records it builds: the `timestamp` is
captured once from `SystemTime::now()` before the loop (modelled as the
parameter `timestamp`), and every record of the batch is built with
`type_object = "planet"`, `z = 0.0` and that shared timestamp. -/
noncomputable def send_planet_positions (timestamp : ℕ)
    (positions : List (String × ℝ × ℝ)) : List PlanetPosition :=
  positions.map fun q =>
    { type_object := "planet"
      name := q.1
      x := q.2.1
      y := q.2.2
      z := 0
      timestamp := timestamp }

/-- One mutation step a ship can undergo during its lifetime: an engines
command block, a rotation command block (both exactly as `on_message`
applies them, including the partially-applied panic case), or one
physics tick `TheShip::update`. -/
inductive ShipOp where
  | cmd_engines (e : Json)
  | cmd_rotation (r : Json)
  | update (delta_time : ℝ)

/-- Apply one `ShipOp` to a ship.  For a command block the resulting ship
is the mutated ship whether the handler completed (`ok`) or panicked
mid-block (`error`): either way those are all the writes the source makes. -/
noncomputable def applyShipOp (s : TheShip) (op : ShipOp) : TheShip :=
  match op with
  | .cmd_engines e =>
    match apply_engines e s with
    | .ok s1 => s1
    | .error s1 => s1
  | .cmd_rotation r =>
    match apply_rotation r s with
    | .ok s1 => s1
    | .error s1 => s1
  | .update dt => s.update dt

/-- A ship's whole lifetime: a finite sequence of command blocks and ticks. -/
noncomputable def applyShipOps (s : TheShip) (ops : List ShipOp) : TheShip :=
  ops.foldl applyShipOp s

/-- Squared Euclidean norm of a 3-vector, as computed in
`TheShip::rotate` (src/ship.rs lines 199-200). -/
noncomputable def normSq (v : ℝ × ℝ × ℝ) : ℝ :=
  v.1 ^ 2 + v.2.1 ^ 2 + v.2.2 ^ 2

theorem rotate_direction_normSq (s : TheShip) (dt : ℝ) :
    normSq (s.rotate dt).direction = 1 := by
  have key : ∀ a p : ℝ,
      normSq
        (Real.cos a * Real.cos p /
            Real.sqrt ((Real.cos a * Real.cos p) ^ 2 + Real.sin p ^ 2 +
              (Real.sin a * Real.cos p) ^ 2),
          Real.sin p /
            Real.sqrt ((Real.cos a * Real.cos p) ^ 2 + Real.sin p ^ 2 +
              (Real.sin a * Real.cos p) ^ 2),
          Real.sin a * Real.cos p /
            Real.sqrt ((Real.cos a * Real.cos p) ^ 2 + Real.sin p ^ 2 +
              (Real.sin a * Real.cos p) ^ 2)) = 1 := by
    intro a p
    have hE : (Real.cos a * Real.cos p) ^ 2 + Real.sin p ^ 2 +
        (Real.sin a * Real.cos p) ^ 2 = 1 := by
      linear_combination Real.cos p ^ 2 * Real.sin_sq_add_cos_sq a +
        Real.sin_sq_add_cos_sq p
    unfold normSq
    simp only [hE, Real.sqrt_one, div_one]
  exact key _ _

theorem update_direction_eq_rotate (s : TheShip) (dt : ℝ) :
    (s.update dt).direction = (s.rotate dt).direction := rfl

/-- C4: For every ship, every finite sequence of updates with arbitrary
rotation-thruster flag settings (here: arbitrary command blocks and ticks)
and arbitrary dt, the heading vector has Euclidean norm 1 after every call
to `update`.  Stated for an arbitrary reachable ship followed by one more
`update`, which covers every intermediate point of every finite sequence. -/
theorem c4_heading_unit_after_update (s : TheShip) (ops : List ShipOp) (dt : ℝ) :
    Real.sqrt (normSq ((applyShipOps s ops).update dt).direction) = 1 := by
  have h : normSq ((applyShipOps s ops).update dt).direction = 1 :=
    rotate_direction_normSq (applyShipOps s ops) dt
  rw [h, Real.sqrt_one]

theorem apply_engines_powers (e : Json) (sh sh1 : TheShip)
    (h : apply_engines e sh = .ok sh1 ∨ apply_engines e sh = .error sh1) :
    sh1.engines.power = sh.engines.power ∧
    sh1.rotation_engines.power = sh.rotation_engines.power := by
  unfold apply_engines at h
  repeat' split at h
  all_goals rcases h with h | h <;> cases h
  all_goals exact ⟨rfl, rfl⟩

theorem apply_rotation_powers (r : Json) (sh sh1 : TheShip)
    (h : apply_rotation r sh = .ok sh1 ∨ apply_rotation r sh = .error sh1) :
    sh1.engines.power = sh.engines.power ∧
    sh1.rotation_engines.power = sh.rotation_engines.power := by
  unfold apply_rotation at h
  repeat' split at h
  all_goals rcases h with h | h <;> cases h
  all_goals exact ⟨rfl, rfl⟩

theorem applyShipOp_powers (s : TheShip) (op : ShipOp) :
    (applyShipOp s op).engines.power = s.engines.power ∧
    (applyShipOp s op).rotation_engines.power = s.rotation_engines.power := by
  cases op with
  | cmd_engines e =>
    cases h : apply_engines e s with
    | ok s1 => simpa [applyShipOp, h] using apply_engines_powers e s s1 (Or.inl h)
    | error s1 => simpa [applyShipOp, h] using apply_engines_powers e s s1 (Or.inr h)
  | cmd_rotation r =>
    cases h : apply_rotation r s with
    | ok s1 => simpa [applyShipOp, h] using apply_rotation_powers r s s1 (Or.inl h)
    | error s1 => simpa [applyShipOp, h] using apply_rotation_powers r s s1 (Or.inr h)
  | update dt => exact ⟨rfl, rfl⟩

theorem applyShipOps_powers (ops : List ShipOp) : ∀ s : TheShip,
    (applyShipOps s ops).engines.power = s.engines.power ∧
    (applyShipOps s ops).rotation_engines.power = s.rotation_engines.power := by
  induction ops with
  | nil => intro s; exact ⟨rfl, rfl⟩
  | cons op ops ih =>
    intro s
    have h1 := applyShipOp_powers s op
    have h2 := ih (applyShipOp s op)
    exact ⟨h2.1.trans h1.1, h2.2.trans h1.2⟩

/-- C10: `engines.power` and `rotation_engines.power` are invariant over a
ship's lifetime: no update and no inbound command block (complete or
panicking mid-way) ever modifies them, so after any finite sequence of
commands and ticks they remain at the creation values 1.0 and 0.5. -/
theorem c10_powers_invariant (u : ℕ) (ops : List ShipOp) :
    (applyShipOps (TheShip.new u) ops).engines.power = 1 ∧
    (applyShipOps (TheShip.new u) ops).rotation_engines.power = 0.5 := by
  have h := applyShipOps_powers ops (TheShip.new u)
  exact ⟨h.1, h.2⟩

/-- C7: `remove_ship` is idempotent: removing an absent id leaves the
whole world state (planets and ship map) unchanged, and removing the same
id twice yields the same world state as removing it once. -/
theorem c7_remove_ship_idempotent (ss : SolarSystem) (uuid : ℕ) :
    ((∀ q ∈ ss.ships, q.1 ≠ uuid) → ss.remove_ship uuid = ss) ∧
    (ss.remove_ship uuid).remove_ship uuid = ss.remove_ship uuid := by
  constructor
  · intro h
    unfold SolarSystem.remove_ship
    have hfilter : ss.ships.filter (fun q => q.1 ≠ uuid) = ss.ships :=
      List.filter_eq_self.mpr (fun a ha => decide_eq_true (h a ha))
    rw [hfilter]
  · unfold SolarSystem.remove_ship
    simp [List.filter_filter]

theorem c7_witness :
    ((⟨[], []⟩ : SolarSystem).remove_ship 5 = ⟨[], []⟩) ∧
    ((⟨[], []⟩ : SolarSystem).remove_ship 5).remove_ship 5
      = (⟨[], []⟩ : SolarSystem).remove_ship 5 :=
  ⟨(c7_remove_ship_idempotent ⟨[], []⟩ 5).1 (by intro q hq; cases hq),
    (c7_remove_ship_idempotent ⟨[], []⟩ 5).2⟩

/-- C8: For every telemetry publish tick over a list of K body positions,
all K emitted sink records carry one identical timestamp (captured once
for the batch), and every record has `type_object = "planet"` and
`z = 0.0`. -/
theorem c8_telemetry_batch (ts : ℕ) (positions : List (String × ℝ × ℝ)) :
    (send_planet_positions ts positions).length = positions.length ∧
    ∀ r ∈ send_planet_positions ts positions,
      r.timestamp = ts ∧ r.type_object = "planet" ∧ r.z = 0 := by
  constructor
  · simp [send_planet_positions]
  · intro r hr
    simp only [send_planet_positions, List.mem_map] at hr
    obtain ⟨q, _, rfl⟩ := hr
    exact ⟨rfl, rfl, rfl⟩

/-- A concrete telemetry record used to instantiate `c8_telemetry_batch`. -/
noncomputable def c8record : PlanetPosition :=
  { type_object := "planet", name := "Mercury", x := 1, y := 2, z := 0, timestamp := 7 }

theorem c8_witness :
    (send_planet_positions 7 [("Mercury", 1, 2)]).length = 1 ∧
    (c8record.timestamp = 7 ∧ c8record.type_object = "planet" ∧ c8record.z = 0) :=
  ⟨(c8_telemetry_batch 7 [("Mercury", 1, 2)]).1,
    (c8_telemetry_batch 7 [("Mercury", 1, 2)]).2 c8record (by
      simp [send_planet_positions, c8record])⟩

/-- C9: the lateral basis vector computed by `accelerate` from the heading
against the world vertical axis has an identically zero y-component, so
with only `engines.left` and/or `engines.right` active the y-component of
velocity is unchanged by `accelerate(dt)`. -/
theorem c9_lateral_keeps_vertical_speed (s : TheShip) (dt : ℝ)
    (hf : s.engines.front = false) (hb : s.engines.back = false)
    (hu : s.engines.up = false) (hd : s.engines.down = false) :
    (TheShip.lateral_local s).2.1 = 0 ∧
    (s.accelerate dt).speed.2.1 = s.speed.2.1 := by
  constructor
  · simp [TheShip.lateral_local]
  · simp only [TheShip.accelerate, hf, hb, hu, hd, Bool.false_eq_true, if_false]
    cases hL : s.engines.left <;> cases hR : s.engines.right <;>
      simp [hL, hR, TheShip.lateral_local]

/-- A concrete ship with only the left engine on, for `c9_witness`. -/
noncomputable def c9ship : TheShip :=
  { TheShip.new 0 with engines.left := true }

theorem c9_witness :
    (TheShip.lateral_local c9ship).2.1 = 0 ∧
    (c9ship.accelerate 2).speed.2.1 = c9ship.speed.2.1 :=
  c9_lateral_keeps_vertical_speed c9ship 2 rfl rfl rfl rfl

/-- C5: with only `engines.back = true` and all other engine and rotation
flags false, one `update(dt)` changes velocity by exactly
`heading · dt · engines.power` component-wise, where the heading is the
ship's heading used by the integrator (the one `rotate` recomputed at the
start of this `update`, which is also the ship's heading after the
update); no other control flag contributes. -/
theorem c5_back_thruster_exact (s : TheShip) (dt : ℝ)
    (hb : s.engines.back = true)
    (hf : s.engines.front = false) (hl : s.engines.left = false)
    (hr : s.engines.right = false) (hu : s.engines.up = false)
    (hd : s.engines.down = false)
    (hrl : s.rotation_engines.left = false)
    (hrr : s.rotation_engines.right = false)
    (hru : s.rotation_engines.up = false)
    (hrd : s.rotation_engines.down = false) :
    (s.update dt).speed.1
        = s.speed.1 + (s.update dt).direction.1 * dt * s.engines.power ∧
    (s.update dt).speed.2.1
        = s.speed.2.1 + (s.update dt).direction.2.1 * dt * s.engines.power ∧
    (s.update dt).speed.2.2
        = s.speed.2.2 + (s.update dt).direction.2.2 * dt * s.engines.power := by
  simp only [TheShip.update, TheShip.accelerate, TheShip.rotate,
    hb, hf, hl, hr, hu, hd, hrl, hrr, hru, hrd,
    Bool.false_eq_true, if_false, if_true]
  refine ⟨by ring_nf, by ring_nf, by ring_nf⟩

/-- A concrete ship with only the back engine on, for `c5_witness`. -/
noncomputable def c5ship : TheShip :=
  { TheShip.new 0 with engines.back := true }

theorem c5_witness :
    (c5ship.update 3).speed.1
        = c5ship.speed.1 + (c5ship.update 3).direction.1 * 3 * c5ship.engines.power ∧
    (c5ship.update 3).speed.2.1
        = c5ship.speed.2.1 + (c5ship.update 3).direction.2.1 * 3 * c5ship.engines.power ∧
    (c5ship.update 3).speed.2.2
        = c5ship.speed.2.2 + (c5ship.update 3).direction.2.2 * 3 * c5ship.engines.power :=
  c5_back_thruster_exact c5ship 3 rfl rfl rfl rfl rfl rfl rfl rfl rfl rfl

/-- C6 counterexample: the newly created ship's heading is NOT the vector
derived from its yaw `−π/2` and pitch `0` by the rotation formula
`(cos(yaw)·cos(pitch), sin(pitch), sin(yaw)·cos(pitch))`: the constructor
sets `direction = (1, 0, 0)` directly, while the derived vector is
`(0, 0, −1)`. -/
theorem c6_counterexample :
    (TheShip.new 0).direction ≠
      (Real.cos (TheShip.new 0).angle * Real.cos (TheShip.new 0).pitch,
        Real.sin (TheShip.new 0).pitch,
        Real.sin (TheShip.new 0).angle * Real.cos (TheShip.new 0).pitch) := by
  intro h
  have h1 := congrArg Prod.fst h
  simp [TheShip.new, Real.cos_pi_div_two] at h1

/-- C6 (amended): a newly created ship has position (0, 0, 450),
thrusterPower 1.0, rotationPower 0.5, all thruster and rotation-thruster
flags false, yaw = −π/2, pitch = 0, and its heading is set directly to
(1, 0, 0) — not derived from yaw/pitch; the vector the §4.2 rotation
formula would give for yaw = −π/2, pitch = 0 is (0, 0, −1). -/
theorem c6_new_ship_defaults (u : ℕ) :
    (TheShip.new u).position = (0, 0, 450) ∧
    (TheShip.new u).engines.power = 1 ∧
    (TheShip.new u).rotation_engines.power = 0.5 ∧
    (TheShip.new u).engines.front = false ∧
    (TheShip.new u).engines.back = false ∧
    (TheShip.new u).engines.left = false ∧
    (TheShip.new u).engines.right = false ∧
    (TheShip.new u).engines.up = false ∧
    (TheShip.new u).engines.down = false ∧
    (TheShip.new u).rotation_engines.left = false ∧
    (TheShip.new u).rotation_engines.right = false ∧
    (TheShip.new u).rotation_engines.up = false ∧
    (TheShip.new u).rotation_engines.down = false ∧
    (TheShip.new u).angle = -(π / 2) ∧
    (TheShip.new u).pitch = 0 ∧
    (TheShip.new u).direction = (1, 0, 0) ∧
    (Real.cos (TheShip.new u).angle * Real.cos (TheShip.new u).pitch,
      Real.sin (TheShip.new u).pitch,
      Real.sin (TheShip.new u).angle * Real.cos (TheShip.new u).pitch)
      = ((0 : ℝ), (0 : ℝ), (-1 : ℝ)) := by
  refine ⟨rfl, rfl, rfl, rfl, rfl, rfl, rfl, rfl, rfl, rfl, rfl, rfl, rfl,
    rfl, rfl, rfl, ?_⟩
  simp [TheShip.new, Real.cos_pi_div_two, Real.sin_pi_div_two]

/-- A concrete body (angularVelocity 1 rad/s) exhibiting the single-step
wraparound failure of `update_position` for large dt. -/
noncomputable def c3planet : Planet :=
  { name := "P", distance_from_sun := 1, angle := 0, angular_velocity := 1 }

/-- C3 counterexample: after `update_position(20)` from angle 0 with
angularVelocity 1, the code's single `−2π` subtraction leaves the angle at
`20 − 2π ≥ 2π`, outside `[0, 2π)` (and hence not equal to
`(0 + 1·20) mod 2π`), refuting the claim for the non-negative input
`dt = 20`. -/
theorem c3_counterexample :
    ¬ ((c3planet.update_position 20).angle < 2 * π) := by
  have hgt : c3planet.angle + c3planet.angular_velocity * 20 > 2 * π := by
    simp only [c3planet]
    nlinarith [Real.pi_lt_four]
  have heq : (c3planet.update_position 20).angle
      = c3planet.angle + c3planet.angular_velocity * 20 - 2 * π := by
    unfold Planet.update_position
    rw [if_pos hgt]
  rw [heq]
  simp only [c3planet]
  intro hlt
  nlinarith [Real.pi_lt_four]

/-- C3 (amended): for a body whose angle is in `[0, 2π)`, a non-negative
angular velocity and `dt ≥ 0`, *provided* the advanced angle
`angle + angularVelocity·dt` stays below `4π` and does not land exactly on
`2π` (one subtraction of `2π` then suffices, matching §4.1's single
wraparound step), the new angle equals `(angle + angularVelocity·dt) mod
2π` and lies in `[0, 2π)`.  For larger dt (sum ≥ 4π) or a sum of exactly
`2π` the code's single conditional subtraction differs from the mod. -/
theorem c3_angle_wraparound (p : Planet) (dt : ℝ)
    (h0 : 0 ≤ p.angle) (_h2 : p.angle < 2 * π)
    (hav : 0 ≤ p.angular_velocity) (hdt : 0 ≤ dt)
    (hlt : p.angle + p.angular_velocity * dt < 4 * π)
    (hne : p.angle + p.angular_velocity * dt ≠ 2 * π) :
    (p.update_position dt).angle
      = toIcoMod Real.two_pi_pos 0 (p.angle + p.angular_velocity * dt) ∧
    0 ≤ (p.update_position dt).angle ∧
    (p.update_position dt).angle < 2 * π := by
  have hx0 : 0 ≤ p.angle + p.angular_velocity * dt := by positivity
  unfold Planet.update_position
  by_cases hcase : p.angle + p.angular_velocity * dt > 2 * π
  · rw [if_pos hcase]
    have hrange : p.angle + p.angular_velocity * dt - 2 * π ∈ Set.Ico (0 : ℝ) (0 + 2 * π) := by
      constructor
      · linarith
      · linarith
    have hmod : toIcoMod Real.two_pi_pos 0 (p.angle + p.angular_velocity * dt)
        = p.angle + p.angular_velocity * dt - 2 * π := by
      have hshift := toIcoMod_add_right Real.two_pi_pos 0
        (p.angle + p.angular_velocity * dt - 2 * π)
      have h1 : (p.angle + p.angular_velocity * dt - 2 * π) + 2 * π
          = p.angle + p.angular_velocity * dt := by ring
      rw [h1] at hshift
      rw [hshift, (toIcoMod_eq_self Real.two_pi_pos).mpr hrange]
    refine ⟨by rw [hmod], by simp; linarith, by simp; linarith⟩
  · rw [if_neg hcase]
    push_neg at hcase
    have hlt2 : p.angle + p.angular_velocity * dt < 2 * π :=
      lt_of_le_of_ne hcase hne
    have hrange : p.angle + p.angular_velocity * dt ∈ Set.Ico (0 : ℝ) (0 + 2 * π) := by
      constructor
      · exact hx0
      · linarith
    refine ⟨by rw [(toIcoMod_eq_self Real.two_pi_pos).mpr hrange], hx0, hlt2⟩

theorem c3_witness :
    (c3planet.update_position 1).angle
      = toIcoMod Real.two_pi_pos 0 (c3planet.angle + c3planet.angular_velocity * 1) ∧
    0 ≤ (c3planet.update_position 1).angle ∧
    (c3planet.update_position 1).angle < 2 * π :=
  c3_angle_wraparound c3planet 1
    (le_refl 0) (by simp [c3planet]; positivity) (by simp [c3planet])
    (by norm_num)
    (by simp only [c3planet]; nlinarith [Real.pi_gt_three])
    (by simp only [c3planet]; nlinarith [Real.pi_gt_three])

/-- The claim-C1 failing input: `{"data":{"rotation":{"left":true}}}` —
a rotation sub-object missing its required `right`, `up`, `down` fields. -/
def c1msg : Json :=
  .obj [("data", .obj [("rotation", .obj [("left", .bool true)])])]

/-- A world holding exactly the session's ship, keyed 0. -/
noncomputable def c1system : SolarSystem :=
  { planets := [], ships := [(0, TheShip.new 0)] }

/-- C1 evaluation at the failing input: on the rotation command missing
`right`, the handler panics (`unwrap()` on `None`, modelled as
`Except.error`) *after* already writing `rotation_engines.left := true` —
it neither rejects the command cleanly nor leaves the ship's
control-surface state unchanged, and the connection handler crashes. -/
theorem c1_panic_with_partial_mutation :
    on_message c1system 0 (some c1msg)
      = .error { planets := [],
                 ships := [(0, { TheShip.new 0 with rotation_engines.left := true })] } := by
  rfl

/-- The claim-C2 failing input: a fully well-formed engines command. -/
def c2msg : Json :=
  .obj [("data", .obj [("engines", .obj
    [("front", .bool false), ("back", .bool true), ("left", .bool false),
     ("right", .bool false), ("up", .bool false), ("down", .bool false)])])]

/-- A world whose ship map no longer contains the session's ship. -/
def c2system : SolarSystem :=
  { planets := [], ships := [] }

/-- C2 evaluation at the failing input: when the session's ship id is no
longer in the ship map, a well-formed engines command makes the handler
panic (`ships.get(&uuid).unwrap()` on `None`, modelled as `Except.error`)
instead of being a silent no-op. -/
theorem c2_panic_on_vanished_ship :
    on_message c2system 0 (some c2msg) = .error c2system := by
  rfl
